import Mathlib

/-!
Verification of the xiaohongshu-batch-processor repository.

The Python sources are embedded shallowly:

* pure string/list manipulation (`create_safe_filename`, `pathSuffix`,
  the collision-avoiding folder naming loop) becomes Lean functions on
  `List Char` / `String`;
* the filesystem is a `List String` of the paths that currently exist;
  `mkdir` is `List.insert`, `shutil.move` is an erase followed by an
  insert;
* external services (the three chat-completion providers, image reads
  and writes, document reads) are parameters: a provider call is a
  function returning `Except String String` (`.error` models a raised
  exception), an image read is `String → Option Image`;
* the nontrivial OpenCV kernels (`cvtColor`, `GaussianBlur`,
  `filter2D`, `addWeighted`) are fields of a `CV2` parameter structure,
  while the elementary per-pixel operations used by the filters
  (`convertScaleAbs`, `split`, `merge`, saturating `add`, `clip`,
  `bitwise_not`, `copyMakeBorder`) are given concretely;
* machine floats appear only in `int(height * 19 / 20)`; for every
  height below 2^49 that expression equals the exact integer
  `19 * height / 20`, which is what the embedding uses.
-/

/-! ### Decimal rendering of the collision counter

Python renders the counter with an f-string; the embedding uses a
structural (kernel-reducible) base-10 rendering and relates it to
`Nat.digits` to obtain injectivity. -/

/-- Little-endian decimal digits of `n`, with explicit fuel so that the
recursion is structural.  `decDigits n n = Nat.digits 10 n`. -/
def decDigits : Nat → Nat → List Nat
  | _, 0 => []
  | 0, _+1 => []
  | fuel+1, n+1 => (n+1) % 10 :: decDigits fuel ((n+1) / 10)

/-- Decimal string of a natural number, as produced for the `_k`
suffixes of the folder naming scheme. -/
def natRepr (n : Nat) : String :=
  String.mk (((decDigits n n).map Nat.digitChar).reverse)

/-! ### Filename sanitization (`BatchProcessor.create_safe_filename`) -/

/-- The punctuation characters trimmed from both ends of a title. -/
def punctuationChars : List Char :=
  "《》“”‘’「」【】()（）[]［］<>《》，。！？；：、,.\"'!?;:~`".data

/-- The characters removed everywhere from a title
(`invalid_chars = '<>:"/\\|?*'`). -/
def invalidChars : List Char :=
  "<>:\"/\\|?*".data

/-- Python `str.strip()`: drop whitespace from both ends. -/
def stripChars (cs : List Char) : List Char :=
  ((cs.dropWhile Char.isWhitespace).reverse.dropWhile Char.isWhitespace).reverse

/-- Model of `BatchProcessor.create_safe_filename`: strip whitespace, trim
punctuation from both ends, delete filesystem-invalid characters,
strip again and truncate to 100 characters. -/
def create_safe_filename (title : String) : String :=
  let t1 := stripChars title.data
  let t2 := t1.dropWhile (· ∈ punctuationChars)
  let t3 := ((t2.reverse.dropWhile (· ∈ punctuationChars)).reverse)
  let t4 := t3.filter (· ∉ invalidChars)
  String.mk ((stripChars t4).take 100)

/-! ### Collision-avoiding fresh names
(`create_output_folder` / `move_source_folder` while loops) -/

/-- The `k`-th candidate path tried by the naming loops: the base path
itself, then `base_1`, `base_2`, ... -/
def cand (base : String) : Nat → String
  | 0 => base
  | k+1 => base ++ "_" ++ natRepr (k+1)

/-- The `while output_path.exists()` loop: starting from candidate `k`,
return the first candidate that is not an existing path.  The fuel is
an upper bound on the number of iterations; `freshPath` supplies
enough fuel for the loop to always finish at a free candidate. -/
def freshFrom (fs : List String) (base : String) : Nat → Nat → String
  | k, 0 => cand base k
  | k, fuel+1 => if cand base k ∈ fs then freshFrom fs base (k+1) fuel else cand base k

/-- First candidate name based at `base` that does not exist in `fs`. -/
def freshPath (fs : List String) (base : String) : String :=
  freshFrom fs base 0 (fs.length + 1)

/-- Model of `Path(p).name`: the final path component (text after the last
slash). -/
def baseName (path : String) : String :=
  match path.data.reverse.findIdx? (· = '/') with
  | none => path
  | some j => String.mk (path.data.drop (path.data.length - j))

/-- Model of `BatchProcessor.create_output_folder`.  State-passing form: takes
the configured output root and the set of existing paths, returns the
created folder path together with the filesystem after
`generated_dir.mkdir(exist_ok=True)` and
`output_path.mkdir(parents=True, exist_ok=True)`. -/
def create_output_folder (output_folder_path : String) (fs : List String)
    (title : String) : String × List String :=
  let fs1 := fs.insert output_folder_path
  let safe_title := create_safe_filename title
  let output_path := freshPath fs1 (output_folder_path ++ "/" ++ safe_title)
  (output_path, fs1.insert output_path)

/-- Model of `BatchProcessor.move_source_folder`.  `moveOk` models whether
`shutil.move` succeeds; on failure the exception is caught and `False`
is returned with the source left in place.  Returns the success flag,
the chosen target path, and the updated filesystem. -/
def move_source_folder (processed_folder_path : String) (fs : List String)
    (source_folder : String) (moveOk : Bool) : Bool × String × List String :=
  let fs1 := fs.insert processed_folder_path
  let target_path := freshPath fs1 (processed_folder_path ++ "/" ++ baseName source_folder)
  if moveOk then (true, target_path, (fs1.erase source_folder).insert target_path)
  else (false, target_path, fs1)

/-! ### Input-folder validation (`BatchProcessor.validate_input_folder`) -/

/-- ASCII lower-casing of a character, as applied to file suffixes. -/
def lowerChar (c : Char) : Char :=
  if 'A' ≤ c ∧ c ≤ 'Z' then Char.ofNat (c.toNat + 32) else c

/-- Lower-cased copy of a string. -/
def lowerString (s : String) : String :=
  String.mk (s.data.map lowerChar)

/-- Model of `pathlib.Path.suffix`: the extension of the final component,
i.e. the text from the last dot on, provided that dot is neither the
first nor the last character; otherwise the empty string. -/
def pathSuffix (name : String) : String :=
  match name.data.reverse.findIdx? (· = '.') with
  | none => ""
  | some j =>
    let i := name.data.length - 1 - j
    if 0 < i ∧ i < name.data.length - 1 then String.mk (name.data.drop i) else ""

/-- Model of `self.image_extensions` from `BatchProcessor.__init__`. -/
def image_extensions : List String :=
  [".jpg", ".jpeg", ".png", ".bmp", ".tiff"]

/-- The three document names probed by `validate_input_folder`. -/
def docPatterns : List String :=
  ["正文.txt", "正文.docx", "正文.md"]

/-- Does an entry name count as an image file
(`file.suffix.lower() in self.image_extensions`)? -/
def isImageEntry (name : String) : Bool :=
  lowerString (pathSuffix name) ∈ image_extensions

/-- An input folder: whether the path exists, and the names yielded by
`folder.iterdir()` (used both for the image scan and for the
existence tests of the three document names). -/
structure Folder where
  exists' : Bool
  entries : List String

/-- The dictionary returned by `validate_input_folder`. -/
structure ValidationResult where
  valid : Bool
  images : List String
  document : Option String
  errors : List String
deriving Repr

/-- Model of `BatchProcessor.validate_input_folder`. -/
def validate_input_folder (folder : Folder) : ValidationResult :=
  if ¬ folder.exists' then
    { valid := false, images := [], document := none, errors := ["文件夹不存在"] }
  else
    let images := folder.entries.filter (fun f => isImageEntry f)
    let doc_files := docPatterns.filter (fun p => p ∈ folder.entries)
    let docPart : Option String × List String :=
      if doc_files.length > 1 then (none, ["发现多个正文文件"])
      else if doc_files.length = 1 then (doc_files.head?, [])
      else (none, ["未找到正文文件"])
    let errors := if images.isEmpty then docPart.2 ++ ["未找到图片文件"] else docPart.2
    { valid := errors.isEmpty, images := images, document := docPart.1, errors := errors }

/-! ### Images and the OpenCV primitives used by the filters -/

/-- A pixel: three 8-bit channels (BGR order, like OpenCV). -/
abbrev Pixel := Nat × Nat × Nat

/-- An image: a list of rows of pixels. -/
abbrev Image := List (List Pixel)

/-- A single channel plane, as produced by `cv2.split`. -/
abbrev Chan := List (List Nat)

/-- OpenCV `cvRound`: round half to even. -/
def cvRound (q : Rat) : Int :=
  let f := q.floor
  let r := q - f
  if r < 1/2 then f else if 1/2 < r then f + 1 else if f % 2 = 0 then f else f + 1

/-- Saturate an integer into the 8-bit range. -/
def saturateByte (i : Int) : Nat :=
  (max 0 (min 255 i)).toNat

/-- Apply a per-channel-value function to every pixel. -/
def mapImage (g : Nat → Nat) (img : Image) : Image :=
  img.map (fun row => row.map (fun p => (g p.1, g p.2.1, g p.2.2)))

/-- Model of `cv2.convertScaleAbs`: per channel value
`saturate_cast<uchar>(|alpha * v + beta|)`. -/
def convertScaleAbs (img : Image) (alpha beta : Rat) : Image :=
  mapImage (fun v => saturateByte (cvRound |alpha * (v : Rat) + beta|)) img

/-- Model of `cv2.split` of a three-channel image. -/
def splitImage (img : Image) : Chan × Chan × Chan :=
  (img.map (List.map (fun p => p.1)),
   img.map (List.map (fun p => p.2.1)),
   img.map (List.map (fun p => p.2.2)))

/-- Pointwise ternary zip, used to re-merge three channel planes. -/
def zipWith3 (g : α → β → γ → δ) : List α → List β → List γ → List δ
  | a :: as, b :: bs, c :: cs => g a b c :: zipWith3 g as bs cs
  | _, _, _ => []

/-- Model of `cv2.merge([c1, c2, c3])`. -/
def mergeChans (c1 c2 c3 : Chan) : Image :=
  zipWith3 (fun r1 r2 r3 => zipWith3 (fun a b c => (a, b, c)) r1 r2 r3) c1 c2 c3

/-- Model of `cv2.add(chan, k)`: saturating scalar addition on a channel. -/
def addScalarSat (c : Chan) (k : Nat) : Chan :=
  c.map (List.map (fun v => min 255 (v + k)))

/-- Model of `np.clip(chan, 0, 255)` on a channel of naturals. -/
def clipChan (c : Chan) : Chan :=
  c.map (List.map (fun v => min 255 v))

/-- Model of `np.clip(img, 0, 255)` on a three-channel image. -/
def clipImage (img : Image) : Image :=
  mapImage (fun v => min 255 v) img

/-- Model of `cv2.bitwise_not` on an 8-bit image. -/
def bitwiseNot (img : Image) : Image :=
  mapImage (fun v => 255 - v) img

/-- Model of `cv2.copyMakeBorder` with `cv2.BORDER_CONSTANT`. -/
def copyMakeBorder (img : Image) (top bottom left right : Nat) (color : Pixel) : Image :=
  let width := match img with | [] => 0 | r :: _ => r.length
  let padRow := List.replicate (left + width + right) color
  List.replicate top padRow
    ++ img.map (fun row => List.replicate left color ++ row ++ List.replicate right color)
    ++ List.replicate bottom padRow

/-- Colour-space codes passed to `cv2.cvtColor` by the two files. -/
inductive ColorCode
  | BGR2HSV
  | HSV2BGR
  | BGR2GRAY
deriving DecidableEq, Repr

/-- The OpenCV kernels whose numeric cores are external to this
repository; both Python files link against the same `cv2` library, so
both embedded copies receive the same bundle. -/
structure CV2 where
  cvtColor : ColorCode → Image → Image
  gaussianBlur : Image → Nat → Nat → Rat → Image
  addWeighted : Image → Rat → Image → Rat → Rat → Image
  filter2D : Image → Int → List (List Int) → Image

namespace ImageProcessor

/-- Model of `ImageProcessor.apply_filter` from `batch_processor.py`: the
`natural` and `warm` branches, and a `ValueError` (modelled as
`.error`) for any other filter type. -/
def apply_filter (cv : CV2) (image : Image) (filter_type : String) : Except String Image :=
  if filter_type = "natural" then
    let image1 := convertScaleAbs image (11/10) 0
    let hsv := cv.cvtColor .BGR2HSV image1
    let (h, s, v) := splitImage hsv
    let s1 := clipChan (addScalarSat s 10)
    .ok (cv.cvtColor .HSV2BGR (mergeChans h s1 v))
  else if filter_type = "warm" then
    let image1 := convertScaleAbs image (21/20) 10
    let (b, g, r) := splitImage image1
    let r1 := clipChan (addScalarSat r 5)
    .ok (mergeChans b g r1)
  else
    .error ("不支持的滤镜类型: " ++ filter_type)

/-- Model of `ImageProcessor.crop_bottom`: keep the top `int(height * 19 / 20)`
rows (exact arithmetic; equal to the float computation for every
height below 2^49). -/
def crop_bottom (image : Image) : Image :=
  let height := image.length
  let crop_height := height * 19 / 20
  image.take crop_height

/-- Model of `ImageProcessor.add_border` (defaults in the source:
`border_size = 20`, `color = (255, 255, 255)`). -/
def add_border (image : Image) (border_size : Nat) (color : Pixel) : Image :=
  copyMakeBorder image border_size border_size border_size border_size color

end ImageProcessor

namespace GaiTuPian

/-- Model of `apply_filter` from `配置与提示词/改图片.py`: eight filter branches
and a `ValueError` for anything else.  The `natural` and `warm`
branches are the ones duplicated in `batch_processor.py`. -/
def apply_filter (cv : CV2) (image : Image) (filter_type : String) : Except String Image :=
  if filter_type = "natural" then
    let image1 := convertScaleAbs image (11/10) 0
    let hsv := cv.cvtColor .BGR2HSV image1
    let (h, s, v) := splitImage hsv
    let s1 := clipChan (addScalarSat s 10)
    .ok (cv.cvtColor .HSV2BGR (mergeChans h s1 v))
  else if filter_type = "warm" then
    let image1 := convertScaleAbs image (21/20) 10
    let (b, g, r) := splitImage image1
    let r1 := clipChan (addScalarSat r 5)
    .ok (mergeChans b g r1)
  else if filter_type = "cool" then
    let (b, g, r) := splitImage image
    let b1 := clipChan (addScalarSat b 5)
    .ok (mergeChans b1 g r)
  else if filter_type = "soft" then
    let blur := cv.gaussianBlur image 3 3 0
    .ok (cv.addWeighted image (9/10) blur (1 - 9/10) 0)
  else if filter_type = "bright" then
    .ok (convertScaleAbs image (11/10) 10)
  else if filter_type = "clarity" then
    let kernel : List (List Int) :=
      [[-1, -1, -1], [-1, 9, -1], [-1, -1, -1]]
    .ok (clipImage (cv.filter2D image (-1) kernel))
  else if filter_type = "grayscale" then
    .ok (cv.cvtColor .BGR2GRAY image)
  else if filter_type = "negative" then
    .ok (bitwiseNot image)
  else
    .error "Unsupported filter type"

/-- Model of `crop_bottom` from `改图片.py`. -/
def crop_bottom (image : Image) : Image :=
  let height := image.length
  let crop_height := height * 19 / 20
  image.take crop_height

/-- Model of `add_border` from `改图片.py` (defaults in the source:
`border_size = 10`, `color = (255, 255, 255)`). -/
def add_border (image : Image) (border_size : Nat) (color : Pixel) : Image :=
  copyMakeBorder image border_size border_size border_size border_size color

end GaiTuPian

/-! ### `BatchProcessor.process_images` -/

/-- The library calls `process_images` performs for one input path, in
the order they are recorded. -/
inductive ImgOp
  | readImage (path : String)
  | applyFilter (filter_type : String)
  | cropBottom
  | addBorder (border_size : Nat) (color : Pixel)
  | writeImage (path : String)
deriving DecidableEq, Repr

/-- One iteration of the `process_images` loop.  `readImage` models
`read_image_chinese_path` (`none` on failure, which skips the image),
`writeImage` models `write_image_chinese_path` returning its success
flag.  The result carries the path written on success and the trace of
library calls; a `.error` is an exception escaping the loop (only
`apply_filter` can raise here). -/
def processOneImage (cv : CV2) (readImage : String → Option Image)
    (writeImage : String → Image → Bool) (output_dir : String)
    (image_path : String) : Except String (Option String × List ImgOp) :=
  match readImage image_path with
  | none => .ok (none, [.readImage image_path])
  | some image =>
    match ImageProcessor.apply_filter cv image "natural" with
    | .error e => .error e
    | .ok filtered_image =>
      let cropped_image := ImageProcessor.crop_bottom filtered_image
      let bordered_image := ImageProcessor.add_border cropped_image 20 (255, 255, 255)
      let output_path := output_dir ++ "/" ++ baseName image_path
      let ops : List ImgOp :=
        [.readImage image_path, .applyFilter "natural", .cropBottom,
         .addBorder 20 (255, 255, 255), .writeImage output_path]
      if writeImage output_path bordered_image then .ok (some output_path, ops)
      else .ok (none, ops)

/-- Model of `BatchProcessor.process_images`: fold `processOneImage` over the
input paths, counting successful writes and collecting the written
paths and the trace. -/
def process_images (cv : CV2) (readImage : String → Option Image)
    (writeImage : String → Image → Bool) (image_paths : List String)
    (output_dir : String) : Except String (Nat × List String × List ImgOp) :=
  match image_paths with
  | [] => .ok (0, [], [])
  | p :: rest =>
    match processOneImage cv readImage writeImage output_dir p with
    | .error e => .error e
    | .ok (written, ops) =>
      match process_images cv readImage writeImage rest output_dir with
      | .error e => .error e
      | .ok (n, ws, opsRest) =>
        match written with
        | some w => .ok (n + 1, w :: ws, ops ++ opsRest)
        | none => .ok (n, ws, ops ++ opsRest)

/-- The library-call trace `process_images` is expected to produce for
a single input path (used to state the claim about it). -/
def expectedImgOps (readImage : String → Option Image) (output_dir : String)
    (p : String) : List ImgOp :=
  match readImage p with
  | none => [.readImage p]
  | some _ =>
    [.readImage p, .applyFilter "natural", .cropBottom,
     .addBorder 20 (255, 255, 255), .writeImage (output_dir ++ "/" ++ baseName p)]

/-- Whether the write of a given input path is expected to succeed
(used to state the count returned by `process_images`). -/
def expectedWrite (cv : CV2) (readImage : String → Option Image)
    (writeImage : String → Image → Bool) (output_dir : String) (p : String) : Bool :=
  match readImage p with
  | none => false
  | some image =>
    match ImageProcessor.apply_filter cv image "natural" with
    | .error _ => false
    | .ok filtered_image =>
      writeImage (output_dir ++ "/" ++ baseName p)
        (ImageProcessor.add_border (ImageProcessor.crop_bottom filtered_image) 20 (255, 255, 255))

/-! ### AI services (`配置与提示词/ai_services.py`)

A provider call takes the prompt template and the user text and either
returns the message content (`.ok`) or raises (`.error` with the
exception text). -/

/-- Model of `rewrite_content`: try OpenRouter, then the SiliconFlow DeepSeek
endpoint, then Moonshot; return the first content obtained, and raise
a combined exception when all three calls fail. -/
def rewrite_content (openrouter siliconflow moonshot : String → String → Except String String)
    (text prompt_template : String) : Except String String :=
  match openrouter prompt_template text with
  | .ok content => .ok content
  | .error e =>
    match siliconflow prompt_template text with
    | .ok content => .ok content
    | .error e2 =>
      match moonshot prompt_template text with
      | .ok content => .ok content
      | .error e3 =>
        .error ("All models failed. OpenRouter: " ++ e ++ ", DeepSeek: " ++ e2 ++
          ", Moonshot: " ++ e3)

/-- Model of `generate_title`: a single Moonshot call, re-raising its failure
with a wrapped message. -/
def generate_title (moonshot : String → String → Except String String)
    (text prompt_template : String) : Except String String :=
  match moonshot prompt_template text with
  | .ok content => .ok content
  | .error e => .error ("Kimi title generation failed: " ++ e)

/-! ### The per-folder pipeline (`BatchProcessor.process_folder_with_retry`) -/

/-- The configuration a `BatchProcessor` instance carries. -/
structure Config where
  output_folder_path : String
  processed_folder_path : String
  rewrite_prompt : String
  title_prompt : String

/-- The external world one attempt of the pipeline interacts with:
the validation result for the folder, the document reader, the four
provider endpoints, the OpenCV bundle, image reads and writes, and
whether `shutil.move` would succeed. -/
structure FolderEnv where
  validation : ValidationResult
  readDoc : String → Option String
  openrouter : String → String → Except String String
  siliconflow : String → String → Except String String
  moonshotRewrite : String → String → Except String String
  moonshotTitle : String → String → Except String String
  cv : CV2
  readImage : String → Option Image
  writeImage : String → Image → Bool
  moveOk : Bool

/-- The visible steps of one pipeline attempt, with the data flowing
into each step. -/
inductive Step
  | validate
  | readDoc (path : String)
  | rewrite (input : String)
  | genTitle (input : String)
  | createFolder (title : String)
  | processImagesStep (images : List String) (output_dir : String)
  | writeFile (path : String) (content : String)
  | moveSource (source : String) (target : String) (ok : Bool)

/-- How one attempt of the body of `process_folder_with_retry` ends:
`invalid` is the validation early-return (no retry), `exn` is a raised
exception (retried), `ok moved` is the `return True` path, recording
whether the final `move_source_folder` succeeded. -/
inductive AttemptResult
  | invalid
  | exn (msg : String)
  | ok (moved : Bool)

/-- Insert several freshly created paths into the filesystem. -/
def insertAll (fs : List String) (ps : List String) : List String :=
  ps.foldl (fun acc w => acc.insert w) fs

/-- One attempt of the pipeline body (the `try` block of
`process_folder_with_retry`): validate, read the document, rewrite,
generate a title, create the output folder, process the images, write
`正文.md` and `标题.txt`, and finally move the source folder.  A falsy
(empty or absent) result of a step raises, as does an exception from a
provider chain; the move result does not affect the outcome. -/
def runAttempt (cfg : Config) (env : FolderEnv) (folder_path : String)
    (fs : List String) : AttemptResult × List Step × List String :=
  if ¬ env.validation.valid then (.invalid, [.validate], fs)
  else
    match env.validation.document with
    | none => (.exn "文档读取失败", [.validate], fs)
    | some docPath =>
      match env.readDoc docPath with
      | none => (.exn "文档读取失败", [.validate, .readDoc docPath], fs)
      | some original_content =>
        if original_content = "" then
          (.exn "文档读取失败", [.validate, .readDoc docPath], fs)
        else
          let trace2 : List Step := [.validate, .readDoc docPath, .rewrite original_content]
          match rewrite_content env.openrouter env.siliconflow env.moonshotRewrite
              original_content cfg.rewrite_prompt with
          | .error e => (.exn e, trace2, fs)
          | .ok rewritten_content =>
            if rewritten_content = "" then (.exn "内容改写失败", trace2, fs)
            else
              let trace3 := trace2 ++ [.genTitle rewritten_content]
              match generate_title env.moonshotTitle rewritten_content cfg.title_prompt with
              | .error e => (.exn e, trace3, fs)
              | .ok title =>
                if title = "" then (.exn "标题生成失败", trace3, fs)
                else
                  let od := create_output_folder cfg.output_folder_path fs title
                  let output_dir := od.1
                  let fs1 := od.2
                  let trace4 := trace3 ++ [.createFolder title,
                    .processImagesStep env.validation.images output_dir]
                  match process_images env.cv env.readImage env.writeImage
                      env.validation.images output_dir with
                  | .error e => (.exn e, trace4, fs1)
                  | .ok (processed_images, written, _ops) =>
                    let fs2 := insertAll fs1 written
                    if processed_images = 0 then (.exn "图片处理失败", trace4, fs2)
                    else
                      let content_file := output_dir ++ "/正文.md"
                      let title_file := output_dir ++ "/标题.txt"
                      let fs3 := (fs2.insert content_file).insert title_file
                      let mv := move_source_folder cfg.processed_folder_path fs3
                        folder_path env.moveOk
                      (.ok mv.1,
                       trace4 ++ [.writeFile content_file rewritten_content,
                         .writeFile title_file title,
                         .moveSource folder_path mv.2.1 mv.1],
                       mv.2.2)

/-- The observable outcome of `process_folder_with_retry`: the boolean
it returns, the outcome of each attempt actually made, how many times
it slept between attempts, and the final filesystem. -/
structure RetryResult where
  result : Bool
  outcomes : List AttemptResult
  sleeps : Nat
  fs : List String

/-- The `for attempt in range(max_retries)` loop.  `fuel` counts the
iterations the loop may still run (it starts at `max_retries`);
validation failure and success return immediately; an exception on the
last attempt returns `False`, otherwise the loop sleeps and goes
round again. -/
def retryGo (cfg : Config) (f : Nat → FolderEnv) (folder_path : String)
    (max_retries : Nat) : Nat → Nat → List String → RetryResult
  | _, 0, fs => ⟨false, [], 0, fs⟩
  | attempt, fuel+1, fs =>
    let step := runAttempt cfg (f attempt) folder_path fs
    match step.1 with
    | .invalid => ⟨false, [.invalid], 0, step.2.2⟩
    | .ok moved => ⟨true, [.ok moved], 0, step.2.2⟩
    | .exn m =>
      if attempt = max_retries - 1 then ⟨false, [.exn m], 0, step.2.2⟩
      else
        let r := retryGo cfg f folder_path max_retries (attempt+1) fuel step.2.2
        ⟨r.result, .exn m :: r.outcomes, r.sleeps + 1, r.fs⟩

/-- Model of `BatchProcessor.process_folder_with_retry` (`max_retries` defaults
to 3 in the source); `f i` is the external world as seen by attempt
`i`. -/
def process_folder_with_retry (cfg : Config) (f : Nat → FolderEnv)
    (folder_path : String) (max_retries : Nat) (fs : List String) : RetryResult :=
  retryGo cfg f folder_path max_retries 0 max_retries fs

/-- Is an attempt outcome a raised exception? -/
def isExn : AttemptResult → Prop
  | .exn _ => True
  | _ => False

/-- Is an attempt outcome the success return? -/
def isOkAttempt : AttemptResult → Prop
  | .ok _ => True
  | _ => False

/-! ### Concrete instances used to evaluate the model on sample data -/

/-- A trivial bundle for the external OpenCV kernels (witnesses may use
any bundle, since the claims hold for every one). -/
def trivCV : CV2 :=
  { cvtColor := fun _ i => i
    gaussianBlur := fun i _ _ _ => i
    addWeighted := fun i _ _ _ _ => i
    filter2D := fun i _ _ => i }

/-- A one-pixel sample image. -/
def sampleImage : Image := [[(5, 5, 5)]]

/-- A sample processor configuration (the defaults from `.env`
handling in `BatchProcessor.__init__`). -/
def exampleConfig : Config :=
  { output_folder_path := "新生成文件"
    processed_folder_path := "已处理文件"
    rewrite_prompt := "改写提示"
    title_prompt := "标题提示" }

/-- A sample environment in which every pipeline step succeeds;
`moveOk` controls whether the final `shutil.move` succeeds. -/
def envSuccess (moveOk : Bool) : FolderEnv :=
  { validation :=
      { valid := true, images := ["待处理/游记/图1.jpg"],
        document := some "待处理/游记/正文.txt", errors := [] }
    readDoc := fun _ => some "原始内容"
    openrouter := fun _ _ => Except.ok "改写后的内容"
    siliconflow := fun _ _ => Except.error "未调用"
    moonshotRewrite := fun _ _ => Except.error "未调用"
    moonshotTitle := fun _ _ => Except.ok "新标题"
    cv := trivCV
    readImage := fun _ => some sampleImage
    writeImage := fun _ _ => true
    moveOk := moveOk }

/-- A sample environment whose folder fails validation. -/
def envInvalid : FolderEnv :=
  { envSuccess true with
    validation :=
      { valid := false, images := [], document := none, errors := ["未找到正文文件"] } }

/-- A sample environment whose document read fails on every attempt. -/
def envReadFail : FolderEnv :=
  { envSuccess true with readDoc := fun _ => none }

/-! ## Helper lemmas -/

theorem decDigits_eq (fuel n : Nat) (h : n ≤ fuel) : decDigits fuel n = Nat.digits 10 n := by
  induction fuel generalizing n with
  | zero =>
    interval_cases n
    simp [decDigits]
  | succ fuel ih =>
    match n with
    | 0 => simp [decDigits]
    | n+1 =>
      rw [decDigits, Nat.digits_def' (by norm_num : (1:Nat) < 10) (Nat.succ_pos n)]
      congr 1
      have hlt : (n + 1) / 10 < n + 1 := Nat.div_lt_self (Nat.succ_pos n) (by norm_num)
      exact ih _ (by omega)

theorem digitChar_inj10 : ∀ a < 10, ∀ b < 10, Nat.digitChar a = Nat.digitChar b → a = b := by
  decide

theorem natRepr_injective : Function.Injective natRepr := by
  intro m n h
  unfold natRepr at h
  rw [decDigits_eq m m le_rfl, decDigits_eq n n le_rfl] at h
  have h2 : ((Nat.digits 10 m).map Nat.digitChar).reverse
      = ((Nat.digits 10 n).map Nat.digitChar).reverse := by
    have := congrArg String.data h
    simpa using this
  have h3 : (Nat.digits 10 m).map Nat.digitChar = (Nat.digits 10 n).map Nat.digitChar :=
    List.reverse_injective h2
  have h4 : Nat.digits 10 m = Nat.digits 10 n := by
    clear h h2
    generalize hm : Nat.digits 10 m = lm at *
    generalize hn : Nat.digits 10 n = ln at *
    have dm : ∀ d ∈ lm, d < 10 := fun d hd => Nat.digits_lt_base (by norm_num) (hm ▸ hd)
    have dn : ∀ d ∈ ln, d < 10 := fun d hd => Nat.digits_lt_base (by norm_num) (hn ▸ hd)
    clear hm hn
    induction lm generalizing ln with
    | nil =>
      cases ln with
      | nil => rfl
      | cons b bs => simp at h3
    | cons a as ih =>
      cases ln with
      | nil => simp at h3
      | cons b bs =>
        simp only [List.map_cons, List.cons.injEq] at h3
        have hab : a = b := digitChar_inj10 a (dm a (by simp)) b (dn b (by simp)) h3.1
        have htl : as = bs :=
          ih bs h3.2 (fun d hd => dm d (by simp [hd])) (fun d hd => dn d (by simp [hd]))
        rw [hab, htl]
  exact Nat.digits_inj_iff.mp h4

theorem cand_length_lt (base : String) (k : Nat) : base.length < (cand base (k+1)).length := by
  show base.length < ((base ++ "_") ++ natRepr (k+1)).length
  rw [String.length_append, String.length_append]
  have : 0 < ("_" : String).length := by decide
  omega

theorem cand_injective (base : String) : Function.Injective (cand base) := by
  intro i j h
  match i, j with
  | 0, 0 => rfl
  | 0, j+1 =>
    exact absurd (congrArg String.length h) (by have := cand_length_lt base j; simp [cand] at *; omega)
  | i+1, 0 =>
    exact absurd (congrArg String.length h.symm)
      (by have := cand_length_lt base i; simp [cand] at *; omega)
  | i+1, j+1 =>
    have hd := congrArg String.data h
    simp only [cand, String.data_append] at hd
    have hd2 : (natRepr (i+1)).data = (natRepr (j+1)).data := by
      rw [List.append_assoc, List.append_assoc] at hd
      exact List.append_cancel_left (List.append_cancel_left hd)
    have : natRepr (i+1) = natRepr (j+1) := by
      cases hr : natRepr (i+1)
      cases hr2 : natRepr (j+1)
      simp_all
    have := natRepr_injective this
    omega

theorem nodup_length_le {l fs : List String} (hnd : l.Nodup) (hsub : ∀ x ∈ l, x ∈ fs) :
    l.length ≤ fs.length := by
  calc l.length = l.toFinset.card := (List.toFinset_card_of_nodup hnd).symm
    _ ≤ fs.toFinset.card := Finset.card_le_card (fun x hx => by
        simp only [List.mem_toFinset] at *
        exact hsub x hx)
    _ ≤ fs.length := fs.toFinset_card_le

theorem freshFrom_spec (fs : List String) (base : String) :
    ∀ fuel k, (∀ j, j < k → cand base j ∈ fs) → fs.length + 1 ≤ k + fuel →
      ∃ K, freshFrom fs base k fuel = cand base K ∧ cand base K ∉ fs ∧
        ∀ j, j < K → cand base j ∈ fs := by
  intro fuel
  induction fuel with
  | zero =>
    intro k hin hcount
    exfalso
    have hnd : ((List.range k).map (cand base)).Nodup :=
      (List.nodup_range k).map (cand_injective base)
    have hsub : ∀ x ∈ (List.range k).map (cand base), x ∈ fs := by
      intro x hx
      obtain ⟨j, hj, rfl⟩ := List.mem_map.mp hx
      exact hin j (List.mem_range.mp hj)
    have := nodup_length_le hnd hsub
    simp only [List.length_map, List.length_range] at this
    omega
  | succ fuel ih =>
    intro k hin hcount
    by_cases hmem : cand base k ∈ fs
    · have hin2 : ∀ j, j < k + 1 → cand base j ∈ fs := by
        intro j hj
        rcases Nat.lt_succ_iff_lt_or_eq.mp hj with h | h
        · exact hin j h
        · exact h ▸ hmem
      obtain ⟨K, hK⟩ := ih (k+1) hin2 (by omega)
      exact ⟨K, by rw [freshFrom, if_pos hmem]; exact hK.1, hK.2.1, hK.2.2⟩
    · exact ⟨k, by rw [freshFrom, if_neg hmem], hmem, hin⟩

theorem freshPath_spec (fs : List String) (base : String) :
    ∃ K, freshPath fs base = cand base K ∧ cand base K ∉ fs ∧
      ∀ j, j < K → cand base j ∈ fs := by
  exact freshFrom_spec fs base (fs.length + 1) 0 (by omega) (by omega)

theorem freshPath_not_mem (fs : List String) (base : String) : freshPath fs base ∉ fs := by
  obtain ⟨K, h1, h2, _⟩ := freshPath_spec fs base
  rw [h1]; exact h2

theorem mem_insertAll {fs : List String} {ps : List String} {x : String} (hx : x ∈ fs) :
    x ∈ insertAll fs ps := by
  induction ps generalizing fs with
  | nil => exact hx
  | cons p ps ih => exact ih (List.mem_insert_of_mem hx)

theorem nodup_insertAll {fs : List String} {ps : List String} (h : fs.Nodup) :
    (insertAll fs ps).Nodup := by
  induction ps generalizing fs with
  | nil => exact h
  | cons p ps ih => exact ih (List.Nodup.insert h)

/-! ## Claim C1 -/

/-- C1: `rewrite_content` tries the providers in the fixed order
OpenRouter, SiliconFlow DeepSeek, Moonshot; it returns the first
content obtained, and it raises exactly when all three providers
fail, combining the three error messages. -/
theorem C1_rewrite_content_fallback_chain
    (a b c : String → String → Except String String) (text prompt : String) :
    (∀ s, a prompt text = .ok s → rewrite_content a b c text prompt = .ok s) ∧
    (∀ e s, a prompt text = .error e → b prompt text = .ok s →
      rewrite_content a b c text prompt = .ok s) ∧
    (∀ e e2 s, a prompt text = .error e → b prompt text = .error e2 →
      c prompt text = .ok s → rewrite_content a b c text prompt = .ok s) ∧
    ((∃ msg, rewrite_content a b c text prompt = .error msg) ↔
      (∃ e, a prompt text = .error e) ∧ (∃ e2, b prompt text = .error e2) ∧
      (∃ e3, c prompt text = .error e3)) ∧
    (∀ e e2 e3, a prompt text = .error e → b prompt text = .error e2 →
      c prompt text = .error e3 →
      rewrite_content a b c text prompt =
        .error ("All models failed. OpenRouter: " ++ e ++ ", DeepSeek: " ++ e2 ++
          ", Moonshot: " ++ e3)) := by
  rcases ha : a prompt text with e | s <;>
    rcases hb : b prompt text with e2 | s2 <;>
      rcases hc : c prompt text with e3 | s3 <;>
        simp [rewrite_content, ha, hb, hc]

/-- Witness for C1: with the first two providers failing and Moonshot
succeeding, the Moonshot content is returned. -/
theorem C1_witness :
    rewrite_content (fun _ _ => Except.error "超时") (fun _ _ => Except.error "限流")
      (fun _ _ => Except.ok "改写结果") "原文" "提示词" = Except.ok "改写结果" :=
  (C1_rewrite_content_fallback_chain _ _ _ "原文" "提示词").2.2.1 "超时" "限流" "改写结果"
    rfl rfl rfl

/-! ## Claim C6 -/

/-- C6: `validate_input_folder` returns `valid = true` exactly when the
folder exists, at least one entry has an image extension, and exactly
one of `正文.txt`, `正文.docx`, `正文.md` is present; otherwise the
error list is non-empty and names the violated conditions (a missing
folder is reported by the single error `文件夹不存在`; for an existing
folder each of the other violated conditions contributes its own
message). -/
theorem C6_validate_input_folder (folder : Folder) :
    ((validate_input_folder folder).valid = true ↔
      folder.exists' = true ∧ (∃ e ∈ folder.entries, isImageEntry e) ∧
        (docPatterns.filter (fun p => p ∈ folder.entries)).length = 1) ∧
    ((validate_input_folder folder).valid = false →
      (validate_input_folder folder).errors ≠ []) ∧
    (folder.exists' = false →
      (validate_input_folder folder).errors = ["文件夹不存在"]) ∧
    (folder.exists' = true →
      (("未找到图片文件" ∈ (validate_input_folder folder).errors) ↔
        ¬ ∃ e ∈ folder.entries, isImageEntry e) ∧
      (("未找到正文文件" ∈ (validate_input_folder folder).errors) ↔
        (docPatterns.filter (fun p => p ∈ folder.entries)).length = 0) ∧
      (("发现多个正文文件" ∈ (validate_input_folder folder).errors) ↔
        1 < (docPatterns.filter (fun p => p ∈ folder.entries)).length)) := by
  cases hex : folder.exists' with
  | false =>
    simp [validate_input_folder, hex]
  | true =>
    by_cases hgt : 1 < (docPatterns.filter (fun p => p ∈ folder.entries)).length
    · have hsome : ∃ x ∈ docPatterns, x ∈ folder.entries := by
        have hpos : 0 < (docPatterns.filter (fun p => p ∈ folder.entries)).length := by omega
        obtain ⟨x, hx⟩ := List.exists_mem_of_ne_nil _ (List.length_pos.mp hpos)
        have hx2 := List.mem_filter.mp hx
        exact ⟨x, hx2.1, by simpa using hx2.2⟩
      by_cases he : ∀ a ∈ folder.entries, isImageEntry a = false
      · simp [validate_input_folder, hex, if_pos hgt, if_pos he, he]
        repeat' apply And.intro
        all_goals first
          | omega
          | exact he
          | exact hsome
          | exact hgt
          | (intro x hx him; simp [he x hx] at him)
          | (intro x hx him; omega)
      · have hex2 : ∃ a ∈ folder.entries, isImageEntry a = true := by
          push_neg at he
          simpa using he
        simp [validate_input_folder, hex, if_pos hgt, if_neg he, hex2]
        repeat' apply And.intro
        all_goals first
          | omega
          | exact hsome
          | exact hgt
          | exact hex2
          | (intro x hx him; omega)
    · by_cases h1 : (docPatterns.filter (fun p => p ∈ folder.entries)).length = 1
      · have hsome : ∃ x ∈ docPatterns, x ∈ folder.entries := by
          have hpos : 0 < (docPatterns.filter (fun p => p ∈ folder.entries)).length := by omega
          obtain ⟨x, hx⟩ := List.exists_mem_of_ne_nil _ (List.length_pos.mp hpos)
          have hx2 := List.mem_filter.mp hx
          exact ⟨x, hx2.1, by simpa using hx2.2⟩
        by_cases he : ∀ a ∈ folder.entries, isImageEntry a = false
        · simp [validate_input_folder, hex, if_neg hgt, if_pos h1, if_pos he, he]
          repeat' apply And.intro
          all_goals first
            | omega
            | exact he
            | exact hsome
            | exact h1
            | (intro x hx him; simp [he x hx] at him)
        · have hex2 : ∃ a ∈ folder.entries, isImageEntry a = true := by
            push_neg at he
            simpa using he
          simp [validate_input_folder, hex, if_neg hgt, if_pos h1, if_neg he, hex2]
          repeat' apply And.intro
          all_goals first
            | omega
            | exact hsome
            | exact h1
            | exact hex2
      · have h0 : (docPatterns.filter (fun p => p ∈ folder.entries)).length = 0 := by omega
        have h0' := h0
        rw [List.length_eq_zero] at h0'
        by_cases he : ∀ a ∈ folder.entries, isImageEntry a = false
        · simp [validate_input_folder, hex, if_neg hgt, if_neg h1, if_pos he, he, h0']
          repeat' apply And.intro
          all_goals first
            | omega
            | exact he
            | exact h0'
            | (intro x hx him; simp [he x hx] at him)
        · have hex2 : ∃ a ∈ folder.entries, isImageEntry a = true := by
            push_neg at he
            simpa using he
          simp [validate_input_folder, hex, if_neg hgt, if_neg h1, if_neg he, hex2, h0']
          repeat' apply And.intro
          all_goals first
            | omega
            | exact hex2
            | exact h0'

/-- Witness for C6: a folder with one image and exactly the file
`正文.txt` validates. -/
theorem C6_witness :
    (validate_input_folder ⟨true, ["照片.jpg", "正文.txt"]⟩).valid = true :=
  (C6_validate_input_folder ⟨true, ["照片.jpg", "正文.txt"]⟩).1.mpr
    ⟨rfl, ⟨"照片.jpg", by decide, by decide⟩, by decide⟩

/-! ## Claim C3 -/

/-- C3: `create_output_folder` returns a path that did not exist before
the call — the sanitized-title base path, or on collision the base
plus the smallest numeric suffix whose candidate is free (every
earlier candidate, the bare base included, already exists); and
`move_source_folder` picks its target in the processed directory by
the same smallest-suffix scheme, a path that did not previously
exist, and on a successful move the target exists afterwards. -/
theorem C3_fresh_output_and_move_target
    (output_folder_path processed_folder_path : String) (fs : List String)
    (title source_folder : String) (moveOk : Bool) :
    ((create_output_folder output_folder_path fs title).1 ∉ fs) ∧
    (∃ K, (create_output_folder output_folder_path fs title).1 =
        cand (output_folder_path ++ "/" ++ create_safe_filename title) K ∧
      cand (output_folder_path ++ "/" ++ create_safe_filename title) K ∉
        fs.insert output_folder_path ∧
      ∀ j, j < K → cand (output_folder_path ++ "/" ++ create_safe_filename title) j ∈
        fs.insert output_folder_path) ∧
    ((move_source_folder processed_folder_path fs source_folder moveOk).2.1 ∉ fs) ∧
    (∃ K, (move_source_folder processed_folder_path fs source_folder moveOk).2.1 =
        cand (processed_folder_path ++ "/" ++ baseName source_folder) K ∧
      cand (processed_folder_path ++ "/" ++ baseName source_folder) K ∉
        fs.insert processed_folder_path ∧
      ∀ j, j < K → cand (processed_folder_path ++ "/" ++ baseName source_folder) j ∈
        fs.insert processed_folder_path) ∧
    (moveOk = true →
      (move_source_folder processed_folder_path fs source_folder moveOk).1 = true ∧
      (move_source_folder processed_folder_path fs source_folder moveOk).2.1 ∈
        (move_source_folder processed_folder_path fs source_folder moveOk).2.2) := by
  have hco : (create_output_folder output_folder_path fs title).1 =
      freshPath (fs.insert output_folder_path)
        (output_folder_path ++ "/" ++ create_safe_filename title) := rfl
  have hmv : (move_source_folder processed_folder_path fs source_folder moveOk).2.1 =
      freshPath (fs.insert processed_folder_path)
        (processed_folder_path ++ "/" ++ baseName source_folder) := by
    cases moveOk <;> rfl
  refine ⟨?_, ?_, ?_, ?_, ?_⟩
  · rw [hco]
    intro hmem
    exact freshPath_not_mem _ _ (List.mem_insert_of_mem hmem)
  · rw [hco]
    exact freshPath_spec _ _
  · rw [hmv]
    intro hmem
    exact freshPath_not_mem _ _ (List.mem_insert_of_mem hmem)
  · rw [hmv]
    exact freshPath_spec _ _
  · intro hok
    subst hok
    exact ⟨rfl, List.mem_insert_self _ _⟩

/-- Witness for C3: with `新生成文件/标题` already on disk, the folder
created for title `标题` is a path that did not exist. -/
theorem C3_witness :
    (create_output_folder "新生成文件" ["新生成文件/标题"] "标题").1 ∉
      ["新生成文件/标题"] :=
  (C3_fresh_output_and_move_target "新生成文件" "已处理文件" ["新生成文件/标题"]
    "标题" "待处理/某文件夹" true).1

/-! ## Claim C4 -/

/-- C4 counterexample: running `create_output_folder` twice on the same
title, the second time from the filesystem state the first call
produced, yields two different paths (`新生成文件/标题` and then
`新生成文件/标题_1`), refuting the claimed idempotence. -/
theorem C4_counterexample :
    (create_output_folder "新生成文件"
        ((create_output_folder "新生成文件" [] "标题").2) "标题").1 ≠
      (create_output_folder "新生成文件" [] "标题").1 := by
  decide

/-- C4 amended: the naming scheme is fresh rather than idempotent —
the first call's path exists in the state it produces, and repeating
the call on the same title from that state yields a path that is new
in that state, hence different from the first. -/
theorem C4_second_call_is_fresh_not_equal
    (output_folder_path : String) (fs : List String) (title : String) :
    (create_output_folder output_folder_path fs title).1 ∈
      (create_output_folder output_folder_path fs title).2 ∧
    (create_output_folder output_folder_path
        ((create_output_folder output_folder_path fs title).2) title).1 ∉
      (create_output_folder output_folder_path fs title).2 ∧
    (create_output_folder output_folder_path
        ((create_output_folder output_folder_path fs title).2) title).1 ≠
      (create_output_folder output_folder_path fs title).1 := by
  have h1 : (create_output_folder output_folder_path fs title).1 ∈
      (create_output_folder output_folder_path fs title).2 :=
    List.mem_insert_self _ _
  have h2 : (create_output_folder output_folder_path
      ((create_output_folder output_folder_path fs title).2) title).1 ∉
      (create_output_folder output_folder_path fs title).2 := by
    intro hmem
    exact freshPath_not_mem _ _ (List.mem_insert_of_mem hmem)
  exact ⟨h1, h2, fun heq => h2 (heq ▸ h1)⟩

/-- Witness for C4: the path created for title `标题` from the empty
state exists in the state that call produces. -/
theorem C4_witness :
    (create_output_folder "新生成文件" [] "标题").1 ∈
      (create_output_folder "新生成文件" [] "标题").2 :=
  (C4_second_call_is_fresh_not_equal "新生成文件" [] "标题").1

/-! ## Claim C10 -/

/-- C10: the image-pipeline functions duplicated between
`batch_processor.py` and `改图片.py` agree: `apply_filter` computes the
same result for the `natural` and `warm` filters, the two `crop_bottom`
functions agree (both keep the top `19 * height / 20` rows unchanged
and all columns), and the two `add_border` functions agree on equal
explicit arguments. -/
theorem C10_duplicated_pipeline_agrees (cv : CV2) (image : Image)
    (border_size : Nat) (color : Pixel) :
    ImageProcessor.apply_filter cv image "natural" = GaiTuPian.apply_filter cv image "natural" ∧
    ImageProcessor.apply_filter cv image "warm" = GaiTuPian.apply_filter cv image "warm" ∧
    ImageProcessor.crop_bottom image = GaiTuPian.crop_bottom image ∧
    (GaiTuPian.crop_bottom image).length = min (image.length * 19 / 20) image.length ∧
    (∀ i : Nat, (GaiTuPian.crop_bottom image)[i]? =
      if i < image.length * 19 / 20 then image[i]? else none) ∧
    ImageProcessor.add_border image border_size color = GaiTuPian.add_border image border_size color := by
  refine ⟨?_, ?_, rfl, ?_, ?_, rfl⟩
  · simp [ImageProcessor.apply_filter, GaiTuPian.apply_filter]
  · simp [ImageProcessor.apply_filter, GaiTuPian.apply_filter]
  · simp [GaiTuPian.crop_bottom]
  · intro i
    simp [GaiTuPian.crop_bottom, List.getElem?_take]

/-! ## Claims C8 and C9: helper lemmas -/

theorem apply_filter_natural_isOk (cv : CV2) (image : Image) :
    ∃ out, ImageProcessor.apply_filter cv image "natural" = Except.ok out := by
  cases hres : ImageProcessor.apply_filter cv image "natural" with
  | ok out => exact ⟨out, rfl⟩
  | error e =>
    exfalso
    unfold ImageProcessor.apply_filter at hres
    rw [if_pos rfl] at hres
    simp at hres

theorem processOneImage_eq (cv : CV2) (readImage : String → Option Image)
    (writeImage : String → Image → Bool) (output_dir p : String) :
    processOneImage cv readImage writeImage output_dir p =
      Except.ok
        ((if expectedWrite cv readImage writeImage output_dir p = true
          then some (output_dir ++ "/" ++ baseName p) else none),
         expectedImgOps readImage output_dir p) := by
  unfold processOneImage expectedWrite expectedImgOps
  rcases hri : readImage p with _ | image
  · simp [hri]
  · obtain ⟨out, hout⟩ := apply_filter_natural_isOk cv image
    simp only [hri, hout]
    by_cases hw : writeImage (output_dir ++ "/" ++ baseName p)
        (ImageProcessor.add_border (ImageProcessor.crop_bottom out) 20 (255, 255, 255)) = true
    · simp [hw]
    · simp [hw]

theorem process_images_eq (cv : CV2) (readImage : String → Option Image)
    (writeImage : String → Image → Bool) (image_paths : List String) (output_dir : String) :
    process_images cv readImage writeImage image_paths output_dir =
      Except.ok
        ((image_paths.filter (fun p => expectedWrite cv readImage writeImage output_dir p)).length,
         (image_paths.filter (fun p => expectedWrite cv readImage writeImage output_dir p)).map
           (fun p => output_dir ++ "/" ++ baseName p),
         image_paths.flatMap (fun p => expectedImgOps readImage output_dir p)) := by
  induction image_paths with
  | nil => simp [process_images]
  | cons p rest ih =>
    rw [process_images, processOneImage_eq, ih]
    by_cases hw : expectedWrite cv readImage writeImage output_dir p = true <;> simp [hw]

/-! ## Claim C9 -/

/-- C9: the `ValueError` branch of `apply_filter` is unreachable from
`process_images`: the filter call made there, with filter type
`natural`, returns a result for every image, and consequently
`process_images` itself never raises. -/
theorem C9_natural_branch_never_raises (cv : CV2) (image : Image)
    (readImage : String → Option Image) (writeImage : String → Image → Bool)
    (image_paths : List String) (output_dir : String) :
    (∃ out, ImageProcessor.apply_filter cv image "natural" = Except.ok out) ∧
    (∃ res, process_images cv readImage writeImage image_paths output_dir = Except.ok res) :=
  ⟨apply_filter_natural_isOk cv image, _, process_images_eq cv readImage writeImage image_paths output_dir⟩

/-! ## Claim C8 -/

/-- C8: for every input path whose image is read successfully,
`process_images` performs exactly the three library calls
`apply_filter "natural"`, `crop_bottom`, `add_border 20 (255,255,255)`
in that order between the read and the write of the original filename
into the output directory (the per-path trace `expectedImgOps` lists
them); the returned count is the number of successful writes, which is
at most the number of input paths. -/
theorem C8_process_images_calls_and_count (cv : CV2) (readImage : String → Option Image)
    (writeImage : String → Image → Bool) (image_paths : List String) (output_dir : String) :
    process_images cv readImage writeImage image_paths output_dir =
      Except.ok
        ((image_paths.filter (fun p => expectedWrite cv readImage writeImage output_dir p)).length,
         (image_paths.filter (fun p => expectedWrite cv readImage writeImage output_dir p)).map
           (fun p => output_dir ++ "/" ++ baseName p),
         image_paths.flatMap (fun p => expectedImgOps readImage output_dir p)) ∧
    (image_paths.filter (fun p => expectedWrite cv readImage writeImage output_dir p)).length ≤
      image_paths.length ∧
    (∀ p image, readImage p = some image →
      expectedImgOps readImage output_dir p =
        [.readImage p, .applyFilter "natural", .cropBottom, .addBorder 20 (255, 255, 255),
         .writeImage (output_dir ++ "/" ++ baseName p)]) := by
  refine ⟨process_images_eq cv readImage writeImage image_paths output_dir,
    List.length_filter_le _ _, ?_⟩
  intro p image hri
  unfold expectedImgOps
  rw [hri]

/-- Witness for C8: with a reader that yields the sample image, the
recorded call sequence for one path is read, filter, crop, border,
write. -/
theorem C8_witness :
    expectedImgOps (fun _ => some sampleImage) "新生成文件/新标题" "待处理/游记/图1.jpg" =
      [.readImage "待处理/游记/图1.jpg", .applyFilter "natural", .cropBottom,
       .addBorder 20 (255, 255, 255), .writeImage "新生成文件/新标题/图1.jpg"] := by
  have h := (C8_process_images_calls_and_count trivCV (fun _ => some sampleImage)
    (fun _ _ => true) ["待处理/游记/图1.jpg"] "新生成文件/新标题").2.2
      "待处理/游记/图1.jpg" sampleImage rfl
  rw [h]
  decide

/-! ## Claim C2: helper lemma -/

theorem retryGo_spec (cfg : Config) (f : Nat → FolderEnv) (folder_path : String)
    (max_retries : Nat) :
    ∀ fuel attempt fs, attempt + fuel = max_retries →
      ((retryGo cfg f folder_path max_retries attempt fuel fs).outcomes.length ≤ fuel) ∧
      (1 ≤ fuel → (retryGo cfg f folder_path max_retries attempt fuel fs).outcomes ≠ []) ∧
      ((retryGo cfg f folder_path max_retries attempt fuel fs).outcomes ≠ [] →
        (retryGo cfg f folder_path max_retries attempt fuel fs).sleeps + 1 =
          (retryGo cfg f folder_path max_retries attempt fuel fs).outcomes.length) ∧
      ((retryGo cfg f folder_path max_retries attempt fuel fs).result = true ↔
        ∃ m, (retryGo cfg f folder_path max_retries attempt fuel fs).outcomes.getLast? =
          some (AttemptResult.ok m)) ∧
      (∀ o ∈ (retryGo cfg f folder_path max_retries attempt fuel fs).outcomes.dropLast, isExn o) ∧
      (((retryGo cfg f folder_path max_retries attempt fuel fs).result = false ∧
          ∀ o ∈ (retryGo cfg f folder_path max_retries attempt fuel fs).outcomes, isExn o) →
        (retryGo cfg f folder_path max_retries attempt fuel fs).outcomes.length = fuel) := by
  intro fuel
  induction fuel with
  | zero =>
    intro attempt fs _
    simp [retryGo]
  | succ fuel ih =>
    intro attempt fs hinv
    rcases hstep : (runAttempt cfg (f attempt) folder_path fs).1 with _ | m | moved
    · simp [retryGo, hstep, isExn]
    · by_cases hlast : attempt = max_retries - 1
      · have hfuel0 : fuel = 0 := by omega
        subst hfuel0
        subst hlast
        simp [retryGo, hstep, isExn]
      · have hfuel : 1 ≤ fuel := by omega
        obtain ⟨ha, hb, hc, hd, he, hf⟩ :=
          ih (attempt+1) ((runAttempt cfg (f attempt) folder_path fs).2.2) (by omega)
        have hne := hb hfuel
        obtain ⟨o, rest, ho⟩ := List.exists_cons_of_ne_nil hne
        simp only [retryGo, hstep, if_neg hlast]
        rw [ho] at ha hc hd he hf ⊢
        refine ⟨?_, ?_, ?_, ?_, ?_, ?_⟩
        · simp only [List.length_cons] at ha ⊢
          omega
        · simp
        · intro _
          have := hc (by simp)
          simp at this ⊢
          omega
        · simpa [List.getLast?_cons_cons] using hd
        · intro x hx
          rw [List.dropLast_cons₂] at hx
          rcases List.mem_cons.mp hx with h | h
          · subst h
            trivial
          · exact he x h
        · intro ⟨hres, hall⟩
          have : (o :: rest).length = fuel := by
            refine hf ⟨hres, ?_⟩
            intro x hx
            exact hall x (List.mem_cons_of_mem _ hx)
          simp at this ⊢
          omega
    · simp [retryGo, hstep, isExn]

/-! ## Claim C2 -/

/-- C2 counterexample: with a folder that fails validation, the first
attempt fails, yet `process_folder_with_retry` neither sleeps nor
makes another attempt (it returns `False` after exactly one of the
allowed 3 attempts), refuting the claim that every per-folder failure
is followed by a sleep and a repeat up to the bound. -/
theorem C2_counterexample :
    (process_folder_with_retry exampleConfig (fun _ => envInvalid) "待处理/游记" 3
      ["待处理/游记"]).outcomes.length = 1 ∧
    (process_folder_with_retry exampleConfig (fun _ => envInvalid) "待处理/游记" 3
      ["待处理/游记"]).sleeps = 0 ∧
    (process_folder_with_retry exampleConfig (fun _ => envInvalid) "待处理/游记" 3
      ["待处理/游记"]).result = false := by
  refine ⟨rfl, rfl, rfl⟩

/-- C2 amended: `process_folder_with_retry` makes at most `max_retries`
attempts (default 3); whenever an attempt fails by raising an
exception and is not the last attempt made, the processor sleeps once
and attempts again — so the sleep count is one less than the attempt
count, every attempt except the last ends in an exception, and when
the folder keeps raising the full bound of `max_retries` attempts is
used; a validation failure instead aborts immediately (it is the last
attempt made, with no sleep); and the call returns `True` exactly when
the last attempt made succeeded. -/
theorem C2_retry_bounded_sleep_and_result (cfg : Config) (f : Nat → FolderEnv)
    (folder_path : String) (max_retries : Nat) (fs : List String)
    (hmr : 1 ≤ max_retries) :
    ((process_folder_with_retry cfg f folder_path max_retries fs).outcomes.length ≤ max_retries) ∧
    ((process_folder_with_retry cfg f folder_path max_retries fs).outcomes ≠ []) ∧
    ((process_folder_with_retry cfg f folder_path max_retries fs).sleeps + 1 =
      (process_folder_with_retry cfg f folder_path max_retries fs).outcomes.length) ∧
    ((process_folder_with_retry cfg f folder_path max_retries fs).result = true ↔
      ∃ m, (process_folder_with_retry cfg f folder_path max_retries fs).outcomes.getLast? =
        some (AttemptResult.ok m)) ∧
    (∀ o ∈ (process_folder_with_retry cfg f folder_path max_retries fs).outcomes.dropLast,
      isExn o) ∧
    (((process_folder_with_retry cfg f folder_path max_retries fs).result = false ∧
        ∀ o ∈ (process_folder_with_retry cfg f folder_path max_retries fs).outcomes, isExn o) →
      (process_folder_with_retry cfg f folder_path max_retries fs).outcomes.length = max_retries) := by
  obtain ⟨ha, hb, hc, hd, he, hf⟩ := retryGo_spec cfg f folder_path max_retries max_retries 0 fs
    (by omega)
  exact ⟨ha, hb hmr, hc (hb hmr), hd, he, hf⟩

/-- Witness for C2: a folder whose document read always fails is
attempted exactly 3 times with 2 sleeps and ends in `False`. -/
theorem C2_witness :
    ((process_folder_with_retry exampleConfig (fun _ => envReadFail) "待处理/游记" 3
        ["待处理/游记"]).outcomes.length ≤ 3) ∧
    ((process_folder_with_retry exampleConfig (fun _ => envReadFail) "待处理/游记" 3
        ["待处理/游记"]).outcomes ≠ []) ∧
    ((process_folder_with_retry exampleConfig (fun _ => envReadFail) "待处理/游记" 3
        ["待处理/游记"]).sleeps + 1 =
      (process_folder_with_retry exampleConfig (fun _ => envReadFail) "待处理/游记" 3
        ["待处理/游记"]).outcomes.length) :=
  have h := C2_retry_bounded_sleep_and_result exampleConfig (fun _ => envReadFail)
    "待处理/游记" 3 ["待处理/游记"] (by decide)
  ⟨h.1, h.2.1, h.2.2.1⟩

/-! ## Claims C5 and C7: helper lemmas about one attempt -/

theorem move_source_folder_fst (pd : String) (fs : List String) (s : String) (ok : Bool) :
    (move_source_folder pd fs s ok).1 = ok := by
  cases ok <;> rfl

theorem move_source_folder_true_snd (pd : String) (fs : List String) (s : String) :
    (move_source_folder pd fs s true).2.2 =
      ((fs.insert pd).erase s).insert (freshPath (fs.insert pd) (pd ++ "/" ++ baseName s)) :=
  rfl

theorem mem_create_output_fs {out fs title} {x : String} (h : x ∈ fs) :
    x ∈ (create_output_folder out fs title).2 :=
  List.mem_insert_of_mem (List.mem_insert_of_mem h)

theorem nodup_create_output_fs {out fs title} (h : List.Nodup fs) :
    (create_output_folder out fs title).2.Nodup :=
  List.Nodup.insert (List.Nodup.insert h)

/-- The filesystem effect of one attempt: a failed attempt (validation
failure or exception) only ever creates paths, so membership and
`Nodup` are preserved; a success reports the move flag from the
environment; and a success with a successful move removes the source
folder and creates a path inside the processed directory. -/
theorem runAttempt_fs_spec (cfg : Config) (env : FolderEnv) (p : String) (fs : List String) :
    ((∀ m, (runAttempt cfg env p fs).1 ≠ AttemptResult.ok m) →
      (∀ x ∈ fs, x ∈ (runAttempt cfg env p fs).2.2) ∧
      (fs.Nodup → (runAttempt cfg env p fs).2.2.Nodup)) ∧
    (∀ m, (runAttempt cfg env p fs).1 = AttemptResult.ok m → m = env.moveOk) ∧
    ((runAttempt cfg env p fs).1 = AttemptResult.ok true → fs.Nodup → p ∈ fs →
      p ∉ (runAttempt cfg env p fs).2.2 ∧
      ∃ rest, cfg.processed_folder_path ++ "/" ++ rest ∈ (runAttempt cfg env p fs).2.2) := by
  unfold runAttempt
  cases hv : env.validation.valid with
  | false => simp [hv]
  | true =>
  simp only [hv, not_true, if_false, Bool.not_eq_true, reduceIte]
  rcases hdoc : env.validation.document with _ | docPath
  · simp
  simp only []
  rcases hread : env.readDoc docPath with _ | content
  · simp
  simp only []
  by_cases hc : content = ""
  · simp [hc]
  simp only [if_neg hc]
  rcases hrw : rewrite_content env.openrouter env.siliconflow env.moonshotRewrite content
      cfg.rewrite_prompt with e | rw
  · simp
  simp only []
  by_cases hrw0 : rw = ""
  · simp [hrw0]
  simp only [if_neg hrw0]
  rcases hti : generate_title env.moonshotTitle rw cfg.title_prompt with e | title
  · simp
  simp only []
  by_cases hti0 : title = ""
  · simp [hti0]
  simp only [if_neg hti0]
  rcases hpi : process_images env.cv env.readImage env.writeImage env.validation.images
      (create_output_folder cfg.output_folder_path fs title).1 with e | res
  · simp
    exact ⟨fun x hx => mem_create_output_fs hx, fun hnd => nodup_create_output_fs hnd⟩
  obtain ⟨n, ws, ops⟩ := res
  simp only []
  by_cases hn : n = 0
  · simp [hn]
    exact ⟨fun x hx => mem_insertAll (mem_create_output_fs hx),
      fun hnd => nodup_insertAll (nodup_create_output_fs hnd)⟩
  simp only [if_neg hn]
  refine ⟨fun hno => absurd rfl (hno _), fun m hm => ?_, fun hok hnd hmem => ?_⟩
  · rw [move_source_folder_fst] at hm
    exact (AttemptResult.ok.inj hm).symm
  · have hmv : env.moveOk = true := by
      rw [move_source_folder_fst] at hok
      exact AttemptResult.ok.inj hok
    rw [hmv]
    set od := create_output_folder cfg.output_folder_path fs title with hod
    set fs2 := insertAll od.2 ws with hfs2
    set cf := od.1 ++ "/正文.md" with hcf
    set tf := od.1 ++ "/标题.txt" with htf
    set fs3 := (fs2.insert cf).insert tf with hfs3
    have hmem3 : p ∈ fs3 :=
      List.mem_insert_of_mem (List.mem_insert_of_mem (mem_insertAll (mem_create_output_fs hmem)))
    have hnd3 : fs3.Nodup :=
      List.Nodup.insert (List.Nodup.insert (nodup_insertAll (nodup_create_output_fs hnd)))
    show p ∉ (move_source_folder cfg.processed_folder_path fs3 p true).2.2 ∧
      ∃ rest, cfg.processed_folder_path ++ "/" ++ rest ∈
        (move_source_folder cfg.processed_folder_path fs3 p true).2.2
    rw [move_source_folder_true_snd]
    have hmem4 : p ∈ fs3.insert cfg.processed_folder_path := List.mem_insert_of_mem hmem3
    have hnd4 : (fs3.insert cfg.processed_folder_path).Nodup := List.Nodup.insert hnd3
    have htfresh := freshPath_not_mem (fs3.insert cfg.processed_folder_path)
      (cfg.processed_folder_path ++ "/" ++ baseName p)
    constructor
    · intro hbad
      rcases List.mem_insert_iff.mp hbad with heq | hin
      · exact htfresh (heq ▸ hmem4)
      · exact ((List.Nodup.mem_erase_iff hnd4).mp hin).1 rfl
    · obtain ⟨K, hK1, _, _⟩ := freshPath_spec (fs3.insert cfg.processed_folder_path)
        (cfg.processed_folder_path ++ "/" ++ baseName p)
      cases K with
      | zero =>
        refine ⟨baseName p, ?_⟩
        rw [hK1]
        exact List.mem_insert_self _ _
      | succ K =>
        refine ⟨baseName p ++ ("_" ++ natRepr (K+1)), ?_⟩
        have hcand : cand (cfg.processed_folder_path ++ "/" ++ baseName p) (K+1) =
            cfg.processed_folder_path ++ "/" ++ (baseName p ++ ("_" ++ natRepr (K+1))) := by
          show cfg.processed_folder_path ++ "/" ++ baseName p ++ "_" ++ natRepr (K+1) = _
          rw [String.append_assoc, String.append_assoc]
        rw [hK1, hcand]
        exact List.mem_insert_self _ _

theorem retryGo_moved (cfg : Config) (f : Nat → FolderEnv) (p : String) (max_retries : Nat)
    (hmv : ∀ i, (f i).moveOk = true) :
    ∀ fuel attempt fs, fs.Nodup → p ∈ fs →
      (retryGo cfg f p max_retries attempt fuel fs).result = true →
      p ∉ (retryGo cfg f p max_retries attempt fuel fs).fs ∧
      ∃ rest, cfg.processed_folder_path ++ "/" ++ rest ∈
        (retryGo cfg f p max_retries attempt fuel fs).fs := by
  intro fuel
  induction fuel with
  | zero =>
    intro attempt fs _ _ hres
    simp [retryGo] at hres
  | succ fuel ih =>
    intro attempt fs hnd hmem hres
    rcases hstep : (runAttempt cfg (f attempt) p fs).1 with _ | m | moved
    · simp [retryGo, hstep] at hres
    · by_cases hlast : attempt = max_retries - 1
      · subst hlast
        simp [retryGo, hstep] at hres
      · obtain ⟨hpres, hnodup⟩ := (runAttempt_fs_spec cfg (f attempt) p fs).1
          (fun m h => by rw [hstep] at h; exact absurd h (by simp))
        simp only [retryGo, hstep, if_neg hlast] at hres ⊢
        exact ih (attempt+1) ((runAttempt cfg (f attempt) p fs).2.2)
          (hnodup hnd) (hpres p hmem) hres
    · have hmoved : moved = (f attempt).moveOk :=
        (runAttempt_fs_spec cfg (f attempt) p fs).2.1 moved hstep
      have hmoved' : moved = true := hmoved.trans (hmv attempt)
      subst hmoved'
      have h3 := (runAttempt_fs_spec cfg (f attempt) p fs).2.2 hstep hnd hmem
      simp only [retryGo, hstep]
      exact h3

/-! ## Claim C5 -/

/-- C5 counterexample: in an environment where every pipeline step
succeeds but `shutil.move` fails, `process_folder_with_retry` still
returns `True` while the source folder is left in place — so a `True`
return does not imply the source folder was archived. -/
theorem C5_counterexample :
    (process_folder_with_retry exampleConfig (fun _ => envSuccess false) "待处理/游记" 3
      ["待处理/游记"]).result = true ∧
    "待处理/游记" ∈ (process_folder_with_retry exampleConfig (fun _ => envSuccess false)
      "待处理/游记" 3 ["待处理/游记"]).fs := by
  exact ⟨rfl, by decide⟩

/-- C5 amended: a `True` return guarantees archiving only when the
move itself succeeds: if the source folder exists (in a
duplicate-free filesystem) and `shutil.move` succeeds on every
attempt, then a `True` return of `process_folder_with_retry` implies
the source folder no longer exists and a path inside the processed
directory was created for it; when the move fails, the code logs a
warning and still returns `True`. -/
theorem C5_true_archives_when_move_succeeds (cfg : Config) (f : Nat → FolderEnv)
    (folder_path : String) (max_retries : Nat) (fs : List String)
    (hnd : fs.Nodup) (hmem : folder_path ∈ fs) (hmv : ∀ i, (f i).moveOk = true)
    (hres : (process_folder_with_retry cfg f folder_path max_retries fs).result = true) :
    folder_path ∉ (process_folder_with_retry cfg f folder_path max_retries fs).fs ∧
    ∃ rest, cfg.processed_folder_path ++ "/" ++ rest ∈
      (process_folder_with_retry cfg f folder_path max_retries fs).fs :=
  retryGo_moved cfg f folder_path max_retries hmv max_retries 0 fs hnd hmem hres

/-- Witness for C5: with a succeeding move, the successful run removes
the source folder and creates a path under `已处理文件`. -/
theorem C5_witness :
    "待处理/游记" ∉ (process_folder_with_retry exampleConfig (fun _ => envSuccess true)
      "待处理/游记" 3 ["待处理/游记"]).fs ∧
    ∃ rest, "已处理文件" ++ "/" ++ rest ∈
      (process_folder_with_retry exampleConfig (fun _ => envSuccess true)
        "待处理/游记" 3 ["待处理/游记"]).fs :=
  C5_true_archives_when_move_succeeds exampleConfig (fun _ => envSuccess true)
    "待处理/游记" 3 ["待处理/游记"] (by decide) (by decide) (fun _ => rfl) (by decide)

/-! ## Claim C7: helper lemma -/

theorem runAttempt_success_eq (cfg : Config) (env : FolderEnv) (folder_path : String)
    (fs : List String) (docPath content rw title : String) (n : Nat) (ws : List String)
    (ops : List ImgOp)
    (hv : env.validation.valid = true)
    (hdoc : env.validation.document = some docPath)
    (hread : env.readDoc docPath = some content) (hc : content ≠ "")
    (hrw : rewrite_content env.openrouter env.siliconflow env.moonshotRewrite content
      cfg.rewrite_prompt = Except.ok rw) (hrw0 : rw ≠ "")
    (hti : generate_title env.moonshotTitle rw cfg.title_prompt = Except.ok title)
    (hti0 : title ≠ "")
    (hpi : process_images env.cv env.readImage env.writeImage env.validation.images
      (create_output_folder cfg.output_folder_path fs title).1 = Except.ok (n, ws, ops))
    (hn : n ≠ 0) :
    runAttempt cfg env folder_path fs =
      (AttemptResult.ok
        (move_source_folder cfg.processed_folder_path
          (((insertAll (create_output_folder cfg.output_folder_path fs title).2 ws).insert
              ((create_output_folder cfg.output_folder_path fs title).1 ++ "/正文.md")).insert
            ((create_output_folder cfg.output_folder_path fs title).1 ++ "/标题.txt"))
          folder_path env.moveOk).1,
       [.validate, .readDoc docPath, .rewrite content, .genTitle rw, .createFolder title,
        .processImagesStep env.validation.images
          (create_output_folder cfg.output_folder_path fs title).1,
        .writeFile ((create_output_folder cfg.output_folder_path fs title).1 ++ "/正文.md") rw,
        .writeFile ((create_output_folder cfg.output_folder_path fs title).1 ++ "/标题.txt") title,
        .moveSource folder_path
          (move_source_folder cfg.processed_folder_path
            (((insertAll (create_output_folder cfg.output_folder_path fs title).2 ws).insert
                ((create_output_folder cfg.output_folder_path fs title).1 ++ "/正文.md")).insert
              ((create_output_folder cfg.output_folder_path fs title).1 ++ "/标题.txt"))
            folder_path env.moveOk).2.1
          (move_source_folder cfg.processed_folder_path
            (((insertAll (create_output_folder cfg.output_folder_path fs title).2 ws).insert
                ((create_output_folder cfg.output_folder_path fs title).1 ++ "/正文.md")).insert
              ((create_output_folder cfg.output_folder_path fs title).1 ++ "/标题.txt"))
            folder_path env.moveOk).1],
       (move_source_folder cfg.processed_folder_path
          (((insertAll (create_output_folder cfg.output_folder_path fs title).2 ws).insert
              ((create_output_folder cfg.output_folder_path fs title).1 ++ "/正文.md")).insert
            ((create_output_folder cfg.output_folder_path fs title).1 ++ "/标题.txt"))
          folder_path env.moveOk).2.2) := by
  unfold runAttempt
  simp only [hv, not_true, Bool.not_eq_true, reduceIte, hdoc, hread, if_neg hc, hrw,
    if_neg hrw0, hti, if_neg hti0, hpi, if_neg hn, List.cons_append, List.nil_append]

/-! ## Claim C7 -/

/-- C7: a successful attempt of the per-folder pipeline performs its
steps in order — validate, read the document, rewrite it, generate a
title from the rewritten text, create the output folder, process the
images into it, write `正文.md` with the rewritten content and
`标题.txt` with the title, and only then move the source folder — with
each step consuming the previous step's output; and the attempt fails
(raises) when rewriting, titling, or image processing yields no
result. -/
theorem C7_pipeline_order_and_gating (cfg : Config) (env : FolderEnv)
    (folder_path : String) (fs : List String) :
    (∀ docPath content rw title n ws ops,
      env.validation.valid = true →
      env.validation.document = some docPath →
      env.readDoc docPath = some content → content ≠ "" →
      rewrite_content env.openrouter env.siliconflow env.moonshotRewrite content
        cfg.rewrite_prompt = Except.ok rw → rw ≠ "" →
      generate_title env.moonshotTitle rw cfg.title_prompt = Except.ok title → title ≠ "" →
      process_images env.cv env.readImage env.writeImage env.validation.images
        (create_output_folder cfg.output_folder_path fs title).1 = Except.ok (n, ws, ops) →
      n ≠ 0 →
      (runAttempt cfg env folder_path fs).1 = AttemptResult.ok env.moveOk ∧
      ∃ target,
        (runAttempt cfg env folder_path fs).2.1 =
          [.validate, .readDoc docPath, .rewrite content, .genTitle rw, .createFolder title,
           .processImagesStep env.validation.images
             (create_output_folder cfg.output_folder_path fs title).1,
           .writeFile ((create_output_folder cfg.output_folder_path fs title).1 ++ "/正文.md") rw,
           .writeFile ((create_output_folder cfg.output_folder_path fs title).1 ++ "/标题.txt")
             title,
           .moveSource folder_path target env.moveOk]) ∧
    (∀ docPath content,
      env.validation.valid = true →
      env.validation.document = some docPath →
      env.readDoc docPath = some content → content ≠ "" →
      rewrite_content env.openrouter env.siliconflow env.moonshotRewrite content
        cfg.rewrite_prompt = Except.ok "" →
      (runAttempt cfg env folder_path fs).1 = AttemptResult.exn "内容改写失败") ∧
    (∀ docPath content rw,
      env.validation.valid = true →
      env.validation.document = some docPath →
      env.readDoc docPath = some content → content ≠ "" →
      rewrite_content env.openrouter env.siliconflow env.moonshotRewrite content
        cfg.rewrite_prompt = Except.ok rw → rw ≠ "" →
      generate_title env.moonshotTitle rw cfg.title_prompt = Except.ok "" →
      (runAttempt cfg env folder_path fs).1 = AttemptResult.exn "标题生成失败") ∧
    (∀ docPath content rw title ws ops,
      env.validation.valid = true →
      env.validation.document = some docPath →
      env.readDoc docPath = some content → content ≠ "" →
      rewrite_content env.openrouter env.siliconflow env.moonshotRewrite content
        cfg.rewrite_prompt = Except.ok rw → rw ≠ "" →
      generate_title env.moonshotTitle rw cfg.title_prompt = Except.ok title → title ≠ "" →
      process_images env.cv env.readImage env.writeImage env.validation.images
        (create_output_folder cfg.output_folder_path fs title).1 = Except.ok (0, ws, ops) →
      (runAttempt cfg env folder_path fs).1 = AttemptResult.exn "图片处理失败") := by
  refine ⟨?_, ?_, ?_, ?_⟩
  · intro docPath content rw title n ws ops hv hdoc hread hc hrw hrw0 hti hti0 hpi hn
    rw [runAttempt_success_eq cfg env folder_path fs docPath content rw title n ws ops
      hv hdoc hread hc hrw hrw0 hti hti0 hpi hn]
    rw [move_source_folder_fst]
    exact ⟨rfl, _, rfl⟩
  · intro docPath content hv hdoc hread hc hrw
    unfold runAttempt
    simp only [hv, not_true, Bool.not_eq_true, reduceIte, hdoc, hread, if_neg hc, hrw]
  · intro docPath content rw hv hdoc hread hc hrw hrw0 hti
    unfold runAttempt
    simp only [hv, not_true, Bool.not_eq_true, reduceIte, hdoc, hread, if_neg hc, hrw,
      if_neg hrw0, hti]
  · intro docPath content rw title ws ops hv hdoc hread hc hrw hrw0 hti hti0 hpi
    unfold runAttempt
    simp only [hv, not_true, Bool.not_eq_true, reduceIte, hdoc, hread, if_neg hc, hrw,
      if_neg hrw0, hti, if_neg hti0, hpi]

/-- Witness for C7: in the all-success sample environment, the attempt
returns success and logs the nine steps in pipeline order. -/
theorem C7_witness :
    (runAttempt exampleConfig (envSuccess true) "待处理/游记" ["待处理/游记"]).1 =
      AttemptResult.ok true ∧
    ∃ target,
      (runAttempt exampleConfig (envSuccess true) "待处理/游记" ["待处理/游记"]).2.1 =
        [.validate, .readDoc "待处理/游记/正文.txt", .rewrite "原始内容",
         .genTitle "改写后的内容", .createFolder "新标题",
         .processImagesStep ["待处理/游记/图1.jpg"] "新生成文件/新标题",
         .writeFile ("新生成文件/新标题" ++ "/正文.md") "改写后的内容",
         .writeFile ("新生成文件/新标题" ++ "/标题.txt") "新标题",
         .moveSource "待处理/游记" target true] :=
  (C7_pipeline_order_and_gating exampleConfig (envSuccess true) "待处理/游记"
      ["待处理/游记"]).1
    "待处理/游记/正文.txt" "原始内容" "改写后的内容" "新标题" 1
    ["新生成文件/新标题/图1.jpg"]
    [.readImage "待处理/游记/图1.jpg", .applyFilter "natural", .cropBottom,
     .addBorder 20 (255, 255, 255), .writeImage "新生成文件/新标题/图1.jpg"]
    rfl rfl rfl (by decide) rfl (by decide) rfl (by decide) rfl (by decide)
